import Mathlib

/-!
Verification development for the RehabRight exercise-analysis engine.

The definitions below are a shallow embedding of the TypeScript sources:
* `src/unnamed/part_000` (pose-detection module): `PoseLandmark`,
  `calculateAngle`, `getKeyLandmarks`;
* `src/src/lib/exercise-rules.ts`: `ExerciseAnalyzer` with its mutable
  fields (`repCount`, `currentScore`, `lastPosition`, `repData`,
  `frameCount`), `analyzeSquat`, `analyzeShoulderAbduction`, `reset`,
  and the `EXERCISE_CONFIGS` registry.

Modelling conventions:
* JavaScript numbers are modelled by `ℝ` (the score arithmetic is exact
  small-integer arithmetic and is modelled by `ℤ`).
* A landmark frame is a `List (Option PoseLandmark)`: `landmarks[i]` on a
  missing index yields `undefined` in JS, modelled by `none`
  (`List.getD _ none`).
* A thrown JS exception (a `TypeError` from reading a property of
  `undefined`) is modelled by `Except.error`: each analyze method returns
  the successor analyzer state paired with `Except String` of its result.
  In `analyzeSquat` the JS code increments `this.frameCount` before the
  first landmark property access, so the state on the error path carries
  the incremented frame counter; `analyzeShoulderAbduction` never touches
  `frameCount` and mutates nothing before its first landmark access.
* `Date.now()` is modelled by an explicit `now` parameter.
* The mutable method bodies are split into named pieces (signals, rep
  update, score, feedback) that compose to the whole method; each piece
  corresponds to a contiguous block of the source method.
-/

/-- Structure `PoseLandmark` from the pose-detection module. -/
structure PoseLandmark where
  x : ℝ
  y : ℝ
  z : ℝ
  visibility : Option ℝ := none

/-- JS `Math.atan2 y x`, in radians, range `(-π, π]` (modelled by
`Complex.arg` of the point `(x, y)`). -/
noncomputable def atan2 (y x : ℝ) : ℝ := Complex.arg ⟨x, y⟩

/-- Function `calculateAngle(point1, point2, point3)` from the pose-detection module:
the absolute difference of the two `atan2` headings, converted to degrees,
folded below 180. Only `x` and `y` of the landmarks are read. -/
noncomputable def calculateAngle (point1 point2 point3 : PoseLandmark) : ℝ :=
  let radians := atan2 (point3.y - point2.y) (point3.x - point2.x) -
                 atan2 (point1.y - point2.y) (point1.x - point2.x)
  let angle := |radians * (180 / Real.pi)|
  if angle > 180 then 360 - angle else angle

/-- The named landmark view built by `getKeyLandmarks`; every slot is
optional because the estimator may drop points (missing array entries are
`undefined` in JS). -/
structure KeyLandmarks where
  leftShoulder : Option PoseLandmark
  rightShoulder : Option PoseLandmark
  leftElbow : Option PoseLandmark
  rightElbow : Option PoseLandmark
  leftWrist : Option PoseLandmark
  rightWrist : Option PoseLandmark
  leftHip : Option PoseLandmark
  rightHip : Option PoseLandmark
  leftKnee : Option PoseLandmark
  rightKnee : Option PoseLandmark
  leftAnkle : Option PoseLandmark
  rightAnkle : Option PoseLandmark
  nose : Option PoseLandmark
  leftEye : Option PoseLandmark
  rightEye : Option PoseLandmark

/-- Function `getKeyLandmarks(landmarks)`: positional lookup with the fixed
anatomical index table (11/12 shoulders, 13/14 elbows, 15/16 wrists,
23/24 hips, 25/26 knees, 27/28 ankles, 0 nose, 1/2 eyes). -/
def getKeyLandmarks (landmarks : List (Option PoseLandmark)) : KeyLandmarks where
  leftShoulder := landmarks.getD 11 none
  rightShoulder := landmarks.getD 12 none
  leftElbow := landmarks.getD 13 none
  rightElbow := landmarks.getD 14 none
  leftWrist := landmarks.getD 15 none
  rightWrist := landmarks.getD 16 none
  leftHip := landmarks.getD 23 none
  rightHip := landmarks.getD 24 none
  leftKnee := landmarks.getD 25 none
  rightKnee := landmarks.getD 26 none
  leftAnkle := landmarks.getD 27 none
  rightAnkle := landmarks.getD 28 none
  nose := landmarks.getD 0 none
  leftEye := landmarks.getD 1 none
  rightEye := landmarks.getD 2 none

/-- The `angles` record `{knee, hip, shoulder}` used by `RepData` and by the
analyze results. -/
structure JointAngles where
  knee : ℝ
  hip : ℝ
  shoulder : ℝ

/-- Record `FeedbackMessage` from `exercise-rules.ts`. -/
structure FeedbackMessage where
  type : String
  message : String
  priority : ℤ

/-- Record `RepData` from `exercise-rules.ts`. -/
structure RepData where
  repIndex : ℕ
  angles : JointAngles
  flags : List String
  score : ℤ
  timestamp : ℤ

/-- The mutable fields of class `ExerciseAnalyzer`. -/
structure AnalyzerState where
  repCount : ℕ
  currentScore : ℤ
  lastPosition : String
  repData : List RepData
  frameCount : ℕ

/-- Initial analyzer field values; `reset()` restores exactly these. -/
def initialState : AnalyzerState where
  repCount := 0
  currentScore := 0
  lastPosition := "up"
  repData := []
  frameCount := 0

/-- The `thresholds` record of `ExerciseConfig` (all fields optional). -/
structure Thresholds where
  depth : Option ℝ := none
  valgusLimit : Option ℝ := none
  leanLimit : Option ℝ := none
  romMin : Option ℝ := none
  romMax : Option ℝ := none
  symmetryLimit : Option ℝ := none

/-- Record `ExerciseConfig` from `exercise-rules.ts`. -/
structure ExerciseConfig where
  name : String
  targetReps : ℕ
  thresholds : Thresholds

/-- The anonymous return record of `analyzeSquat` / `analyzeShoulderAbduction`. -/
structure AnalyzeResult where
  score : ℤ
  feedback : List FeedbackMessage
  repCount : ℕ
  isInPosition : Bool
  angles : JointAngles

/-- Inserts a message into an already-sorted (descending priority) list,
before the first element whose priority is not larger: together with
`sortFeedback` this is the unique stable descending sort, which is what
`feedback.sort((a, b) => b.priority - a.priority)` computes (ECMAScript
`Array.prototype.sort` is stable). -/
def insertDesc (m : FeedbackMessage) : List FeedbackMessage → List FeedbackMessage
  | [] => [m]
  | n :: ns => if m.priority < n.priority then n :: insertDesc m ns else m :: n :: ns

/-- Stable sort of feedback messages by descending `priority`; models
`feedback.sort((a, b) => b.priority - a.priority)`. -/
def sortFeedback : List FeedbackMessage → List FeedbackMessage
  | [] => []
  | m :: ms => insertDesc m (sortFeedback ms)

/-- The landmarks whose properties `analyzeSquat` reads; if any of them is
`undefined` the JS method throws a `TypeError` at its first property
access. -/
structure SquatPoints where
  leftHip : PoseLandmark
  leftKnee : PoseLandmark
  leftAnkle : PoseLandmark
  rightHip : PoseLandmark
  rightKnee : PoseLandmark
  rightAnkle : PoseLandmark
  leftShoulder : PoseLandmark
  rightShoulder : PoseLandmark

/-- Collects the landmarks `analyzeSquat` dereferences, or `none` when one
is absent (the JS `TypeError` situation). -/
def requireSquat (k : KeyLandmarks) : Option SquatPoints :=
  match k.leftHip, k.leftKnee, k.leftAnkle, k.rightHip, k.rightKnee, k.rightAnkle,
      k.leftShoulder, k.rightShoulder with
  | some lh, some lk, some la, some rh, some rk, some ra, some ls, some rs =>
      some { leftHip := lh, leftKnee := lk, leftAnkle := la, rightHip := rh,
             rightKnee := rk, rightAnkle := ra, leftShoulder := ls, rightShoulder := rs }
  | _, _, _, _, _, _, _, _ => none

/-- The per-frame geometric signals of `analyzeSquat` (lines 66-113 of
`exercise-rules.ts`): the representative knee angle, the hip angle, and the
three boolean form faults. -/
structure SquatSignals where
  kneeAngle : ℝ
  hipAngle : ℝ
  leftValgus : Bool
  rightValgus : Bool
  excessiveLean : Bool

/-- Computes the squat signals from the dereferenced landmarks, exactly as
lines 66-113 of `exercise-rules.ts`: knee angle is the minimum of the two
hip-knee-ankle angles; hip angle is shoulder-hip-knee on the left side;
valgus compares knee and ankle `x` with a 0.02 margin; lean compares the
`x` of the shoulder and hip midpoints with a 0.05 bound (the `y`/`z`
midpoint components are computed by the source but never used). -/
noncomputable def squatSignals (p : SquatPoints) : SquatSignals :=
  let leftKneeAngle := calculateAngle p.leftHip p.leftKnee p.leftAnkle
  let rightKneeAngle := calculateAngle p.rightHip p.rightKnee p.rightAnkle
  let kneeAngle := min leftKneeAngle rightKneeAngle
  let hipAngle := calculateAngle p.leftShoulder p.leftHip p.leftKnee
  let shoulderMidX := (p.leftShoulder.x + p.rightShoulder.x) / 2
  let hipMidX := (p.leftHip.x + p.rightHip.x) / 2
  let torsoLean := |shoulderMidX - hipMidX|
  { kneeAngle := kneeAngle
    hipAngle := hipAngle
    leftValgus := decide (p.leftKnee.x < p.leftAnkle.x - 0.02)
    rightValgus := decide (p.rightKnee.x > p.rightAnkle.x + 0.02)
    excessiveLean := decide ( torsoLean > 0.05) }

/-- The `RepData` record built at the counted squat transition
(lines 123-133): `repIndex` uses the already-incremented rep counter,
the angles and flags reflect the current frame, while `score` reads the
stored `this.currentScore` field, which was last written at the end of
the previous call. -/
noncomputable def squatRep (sig : SquatSignals) (s : AnalyzerState) (now : ℤ) : RepData where
  repIndex := s.repCount + 1
  angles := { knee := sig.kneeAngle, hip := sig.hipAngle, shoulder := 0 }
  flags := (if ¬ (sig.kneeAngle < 90) then ["shallow_squat"] else []) ++
           (if sig.leftValgus || sig.rightValgus then ["knee_valgus"] else []) ++
           (if SquatSignals.excessiveLean sig then ["excessive_lean"] else [])
  score := s.currentScore
  timestamp := now

/-- The squat rep-counting block (lines 116-136): `isInBottomPosition` is
`kneeAngle < 120`; going below while `lastPosition` is `"up"` flips to
`"down"`; leaving the bottom while `"down"` increments the counter, flips
to `"up"`, and appends one `RepData`. -/
noncomputable def squatRepUpdate (sig : SquatSignals) (s : AnalyzerState) (now : ℤ) :
    AnalyzerState :=
  if sig.kneeAngle < 120 ∧ s.lastPosition = "up" then
    { s with lastPosition := "down" }
  else if ¬ (sig.kneeAngle < 120) ∧ s.lastPosition = "down" then
    { s with repCount := s.repCount + 1
             lastPosition := "up"
             repData := s.repData ++ [squatRep sig s now] }
  else s

/-- The squat score deductions (lines 138-172): start at 100, subtract 15
when in the bottom position without good depth, 20 on valgus, 10 on
excessive lean. -/
noncomputable def squatScore (sig : SquatSignals) : ℤ :=
  100 - (if sig.kneeAngle < 120 ∧ ¬ (sig.kneeAngle < 90) then 15 else 0)
      - (if sig.leftValgus || sig.rightValgus then 20 else 0)
      - (if SquatSignals.excessiveLean sig then 10 else 0)

/-- The squat feedback generation (lines 138-183), in source push order:
depth message (only while in bottom position), valgus message, lean
message, then the rate-limited info message (every 30th frame, only when
nothing else was pushed and the athlete is in bottom position). -/
noncomputable def squatFeedback (sig : SquatSignals) (frameCount : ℕ) :
    List FeedbackMessage :=
  let depthFb : List FeedbackMessage :=
    if sig.kneeAngle < 120 then
      if ¬ (sig.kneeAngle < 90) then
        [{ type := "warning"
           message := "Go a bit deeper - aim for thighs parallel to floor"
           priority := 3 }]
      else
        [{ type := "success", message := "Great depth!", priority := 1 }]
    else []
  let fb1 := depthFb ++
    (if sig.leftValgus || sig.rightValgus then
      [{ type := "error"
         message := "Push your knees out - don\x27t let them cave in"
         priority := 4 }]
     else [])
  let fb2 := fb1 ++
    (if SquatSignals.excessiveLean sig then
      [{ type := "warning"
         message := "Keep your chest up and back straight"
         priority := 2 }]
     else [])
  fb2 ++
    (if frameCount % 30 = 0 ∧ fb2.length = 0 ∧ sig.kneeAngle < 120 then
      [{ type := "info", message := "Looking good! Keep it controlled", priority := 0 }]
     else [])

/-- One `analyzeSquat` call after the landmark dereferences succeeded:
the frame counter is incremented, the rep block runs, the score is clamped
with `Math.max(0, score)` into `this.currentScore`, and the result carries
the sorted-and-truncated feedback. The `config` argument is accepted (as in
the source signature) but never read. -/
noncomputable def squatStep (sig : SquatSignals) (config : ExerciseConfig)
    (s : AnalyzerState) (now : ℤ) : AnalyzerState × AnalyzeResult :=
  let s1 := squatRepUpdate sig { s with frameCount := s.frameCount + 1 } now
  let s2 := { s1 with currentScore := max 0 (squatScore sig) }
  (s2,
   { score := s2.currentScore
     feedback := (sortFeedback (squatFeedback sig (s.frameCount + 1))).take 2
     repCount := s2.repCount
     isInPosition := decide (sig.kneeAngle < 120)
     angles := { knee := sig.kneeAngle, hip := sig.hipAngle, shoulder := 0 } })

/-- Method `analyzeSquat(landmarks, config)`. When a dereferenced landmark is
absent the JS method throws after having incremented `this.frameCount`;
otherwise it completes normally. -/
noncomputable def analyzeSquat (landmarks : List (Option PoseLandmark))
    (config : ExerciseConfig) (s : AnalyzerState) (now : ℤ) :
    AnalyzerState × Except String AnalyzeResult :=
  match requireSquat (getKeyLandmarks landmarks) with
  | none => ({ s with frameCount := s.frameCount + 1 }, Except.error "TypeError")
  | some p =>
      let r := squatStep (squatSignals p) config s now
      (r.1, Except.ok r.2)

/-- The landmarks whose properties `analyzeShoulderAbduction` reads. -/
structure ShoulderPoints where
  leftElbow : PoseLandmark
  leftShoulder : PoseLandmark
  leftHip : PoseLandmark
  rightElbow : PoseLandmark
  rightShoulder : PoseLandmark
  rightHip : PoseLandmark

/-- Collects the landmarks `analyzeShoulderAbduction` dereferences, or
`none` when one is absent. -/
def requireShoulder (k : KeyLandmarks) : Option ShoulderPoints :=
  match k.leftElbow, k.leftShoulder, k.leftHip, k.rightElbow, k.rightShoulder,
      k.rightHip with
  | some le, some ls, some lh, some re, some rs, some rh =>
      some { leftElbow := le, leftShoulder := ls, leftHip := lh,
             rightElbow := re, rightShoulder := rs, rightHip := rh }
  | _, _, _, _, _, _ => none

/-- The per-frame signals of `analyzeShoulderAbduction` (lines 208-236):
the two elbow-shoulder-hip angles and the two hiking booleans. -/
structure ShoulderSignals where
  leftShoulderAngle : ℝ
  rightShoulderAngle : ℝ
  leftHiking : Bool
  rightHiking : Bool

/-- Computes the shoulder signals exactly as lines 208-236. -/
noncomputable def shoulderSignals (p : ShoulderPoints) : ShoulderSignals where
  leftShoulderAngle := calculateAngle p.leftElbow p.leftShoulder p.leftHip
  rightShoulderAngle := calculateAngle p.rightElbow p.rightShoulder p.rightHip
  leftHiking := decide (p.leftElbow.y < p.leftShoulder.y)
  rightHiking := decide (p.rightElbow.y < p.rightShoulder.y)

/-- Local value `avgShoulderAngle` (line 220). -/
noncomputable def avgShoulderAngle (sig : ShoulderSignals) : ℝ :=
  (sig.leftShoulderAngle + sig.rightShoulderAngle) / 2

/-- Local value `shoulderSymmetry` (line 221). -/
noncomputable def shoulderSymmetry (sig : ShoulderSignals) : ℝ :=
  |sig.leftShoulderAngle - sig.rightShoulderAngle|

/-- The shoulder rep-counting block (lines 238-244): with
`isInPosition = avgShoulderAngle > 45`, the phase flips to `"up"` when in
position and above 75 while `"down"`, and the counter increments (phase to
`"down"`) when not in position and below 30 while `"up"`. No `RepData` is
recorded here. -/
noncomputable def shoulderRepUpdate (sig : ShoulderSignals) (s : AnalyzerState) :
    AnalyzerState :=
  if avgShoulderAngle sig > 45 ∧ avgShoulderAngle sig > 75 ∧ s.lastPosition = "down" then
    { s with lastPosition := "up" }
  else if ¬ (avgShoulderAngle sig > 45) ∧ avgShoulderAngle sig < 30 ∧
      s.lastPosition = "up" then
    { s with repCount := s.repCount + 1, lastPosition := "down" }
  else s

/-- The shoulder score deductions (lines 247-281): with target 90, a
deviation above 15 costs 15 under target and 10 over target; symmetry gap
above 15 costs 20; hiking costs 10. -/
noncomputable def shoulderScore (sig : ShoulderSignals) : ℤ :=
  100 - (if |avgShoulderAngle sig - 90| > 15 then
           (if avgShoulderAngle sig < 90 - 15 then 15
            else if avgShoulderAngle sig > 90 + 15 then 10 else 0)
         else 0)
      - (if shoulderSymmetry sig > 15 then 20 else 0)
      - (if sig.leftHiking || sig.rightHiking then 10 else 0)

/-- The shoulder feedback generation (lines 247-289), in source push order:
deviation warning, symmetry error, hiking warning, then the perfect-form
success message (deviation at most 10 and symmetry at most 10). -/
noncomputable def shoulderFeedback (sig : ShoulderSignals) : List FeedbackMessage :=
  (if |avgShoulderAngle sig - 90| > 15 then
     (if avgShoulderAngle sig < 90 - 15 then
       [{ type := "warning"
          message := "Raise your arms higher - aim for 90 degrees"
          priority := 3 }]
      else if avgShoulderAngle sig > 90 + 15 then
       [{ type := "warning"
          message := "Lower your arms slightly - aim for 90 degrees"
          priority := 3 }]
      else [])
   else []) ++
  (if shoulderSymmetry sig > 15 then
    [{ type := "error"
       message := "Keep both arms at the same level for symmetry"
       priority := 4 }]
   else []) ++
  (if sig.leftHiking || sig.rightHiking then
    [{ type := "warning"
       message := "Relax your shoulders - don\x27t shrug them up"
       priority := 2 }]
   else []) ++
  (if |avgShoulderAngle sig - 90| ≤ 10 ∧ shoulderSymmetry sig ≤ 10 then
    [{ type := "success", message := "Perfect form! Great ROM and symmetry", priority := 1 }]
   else [])

/-- One `analyzeShoulderAbduction` call after the landmark dereferences
succeeded. `frameCount` is not touched by this method; the `config`
argument is accepted but never read. -/
noncomputable def shoulderStep (sig : ShoulderSignals) (config : ExerciseConfig)
    (s : AnalyzerState) : AnalyzerState × AnalyzeResult :=
  let s1 := shoulderRepUpdate sig s
  let s2 := { s1 with currentScore := max 0 (shoulderScore sig) }
  (s2,
   { score := s2.currentScore
     feedback := (sortFeedback (shoulderFeedback sig)).take 2
     repCount := s2.repCount
     isInPosition := decide (avgShoulderAngle sig > 45)
     angles := { knee := 0, hip := 0, shoulder := avgShoulderAngle sig } })

/-- Method `analyzeShoulderAbduction(landmarks, config)`. When a dereferenced
landmark is absent the JS method throws before mutating any field. -/
noncomputable def analyzeShoulderAbduction (landmarks : List (Option PoseLandmark))
    (config : ExerciseConfig) (s : AnalyzerState) :
    AnalyzerState × Except String AnalyzeResult :=
  match requireShoulder (getKeyLandmarks landmarks) with
  | none => (s, Except.error "TypeError")
  | some p =>
      let r := shoulderStep (shoulderSignals p) config s
      (r.1, Except.ok r.2)

/-- Registry entry `EXERCISE_CONFIGS.squat`. -/
noncomputable def squatConfig : ExerciseConfig where
  name := "Squat"
  targetReps := 10
  thresholds := { depth := some 90, valgusLimit := some 0.02, leanLimit := some 0.05 }

/-- Registry entry `EXERCISE_CONFIGS.shoulderAbduction`. -/
noncomputable def shoulderAbductionConfig : ExerciseConfig where
  name := "Shoulder Abduction"
  targetReps := 15
  thresholds := { romMin := some 80, romMax := some 100, symmetryLimit := some 15 }

/-- The `EXERCISE_CONFIGS` registry. -/
noncomputable def EXERCISE_CONFIGS : List (String × ExerciseConfig) :=
  [("squat", squatConfig), ("shoulderAbduction", shoulderAbductionConfig)]

/-- Folding `analyzeSquat` state updates over a list of per-frame squat
signal records (a frame sequence whose landmark dereferences succeed). -/
noncomputable def squatRunSeq (sigs : List SquatSignals) (config : ExerciseConfig)
    (s : AnalyzerState) (now : ℤ) : AnalyzerState :=
  sigs.foldl (fun st g => (squatStep g config st now).1) s

/-- Folding `analyzeShoulderAbduction` state updates over per-frame shoulder
signal records. -/
noncomputable def shoulderRunSeq (sigs : List ShoulderSignals) (config : ExerciseConfig)
    (s : AnalyzerState) : AnalyzerState :=
  sigs.foldl (fun st g => (shoulderStep g config st).1) s

/-- Returns `true` exactly when all landmarks dereferenced by `analyzeSquat`
are present in the frame. -/
def squatLandmarksPresent (landmarks : List (Option PoseLandmark)) : Bool :=
  (getKeyLandmarks landmarks).leftHip.isSome &&
  (getKeyLandmarks landmarks).leftKnee.isSome &&
  (getKeyLandmarks landmarks).leftAnkle.isSome &&
  (getKeyLandmarks landmarks).rightHip.isSome &&
  (getKeyLandmarks landmarks).rightKnee.isSome &&
  (getKeyLandmarks landmarks).rightAnkle.isSome &&
  (getKeyLandmarks landmarks).leftShoulder.isSome &&
  (getKeyLandmarks landmarks).rightShoulder.isSome

/-- Returns `true` exactly when all landmarks dereferenced by
`analyzeShoulderAbduction` are present in the frame. -/
def shoulderLandmarksPresent (landmarks : List (Option PoseLandmark)) : Bool :=
  (getKeyLandmarks landmarks).leftElbow.isSome &&
  (getKeyLandmarks landmarks).leftShoulder.isSome &&
  (getKeyLandmarks landmarks).leftHip.isSome &&
  (getKeyLandmarks landmarks).rightElbow.isSome &&
  (getKeyLandmarks landmarks).rightShoulder.isSome &&
  (getKeyLandmarks landmarks).rightHip.isSome

/-- Returns `true` on `Except.ok` (the call returned a snapshot), `false` on
`Except.error` (the call raised). -/
def exceptOk {α : Type} : Except String α → Bool
  | Except.ok _ => true
  | Except.error _ => false

/-! ### Angle calculator lemmas -/

lemma atan2_le_pi (y x : ℝ) : atan2 y x ≤ Real.pi := Complex.arg_le_pi _

lemma neg_pi_lt_atan2 (y x : ℝ) : -Real.pi < atan2 y x := Complex.neg_pi_lt_arg _

lemma fold_range {A : ℝ} (h0 : 0 ≤ A) (h360 : A < 360) :
    0 ≤ (if A > 180 then 360 - A else A) ∧ (if A > 180 then 360 - A else A) ≤ 180 := by
  split_ifs with h
  · constructor <;> linarith
  · exact ⟨h0, by linarith [not_lt.mp h]⟩

lemma raw_angle_lt_360 (a b : ℝ) (h1 : a ≤ Real.pi) (h2 : -Real.pi < a)
    (h3 : b ≤ Real.pi) (h4 : -Real.pi < b) :
    |(a - b) * (180 / Real.pi)| < 360 := by
  have hpi : (0 : ℝ) < Real.pi := Real.pi_pos
  have hconv : (0 : ℝ) < 180 / Real.pi := by positivity
  have hab : |a - b| < 2 * Real.pi := abs_lt.mpr ⟨by linarith, by linarith⟩
  have hmul : |a - b| * (180 / Real.pi) < (2 * Real.pi) * (180 / Real.pi) :=
    mul_lt_mul_of_pos_right hab hconv
  have h2pi : (2 * Real.pi) * (180 / Real.pi) = 360 := by
    field_simp
    ring
  rw [abs_mul, abs_of_pos hconv]
  linarith

lemma calculateAngle_nonneg_le (p1 p2 p3 : PoseLandmark) :
    0 ≤ calculateAngle p1 p2 p3 ∧ calculateAngle p1 p2 p3 ≤ 180 :=
  fold_range (abs_nonneg _)
    (raw_angle_lt_360 _ _ (atan2_le_pi _ _) (neg_pi_lt_atan2 _ _)
      (atan2_le_pi _ _) (neg_pi_lt_atan2 _ _))

lemma atan2_one_zero : atan2 1 0 = Real.pi / 2 := by
  have h : (⟨0, 1⟩ : ℂ) = Complex.I := rfl
  unfold atan2
  rw [h, Complex.arg_I]

lemma atan2_zero_one : atan2 0 1 = 0 := by
  have h : (⟨1, 0⟩ : ℂ) = 1 := by
    apply Complex.ext <;> simp
  unfold atan2
  rw [h, Complex.arg_one]

lemma atan2_zero_neg_one : atan2 0 (-1) = Real.pi := by
  have h : (⟨-1, 0⟩ : ℂ) = -1 := by
    apply Complex.ext <;> simp
  unfold atan2
  rw [h, Complex.arg_neg_one]

lemma calculateAngle_right_angle :
    calculateAngle ⟨1, 0, 0, none⟩ ⟨0, 0, 0, none⟩ ⟨0, 1, 0, none⟩ = 90 := by
  have h : calculateAngle ⟨1, 0, 0, none⟩ ⟨0, 0, 0, none⟩ ⟨0, 1, 0, none⟩
      = if |(atan2 1 0 - atan2 0 1) * (180 / Real.pi)| > 180
        then 360 - |(atan2 1 0 - atan2 0 1) * (180 / Real.pi)|
        else |(atan2 1 0 - atan2 0 1) * (180 / Real.pi)| := by
    unfold calculateAngle
    norm_num
  rw [h, atan2_one_zero, atan2_zero_one]
  have hv : (Real.pi / 2 - 0) * (180 / Real.pi) = 90 := by
    field_simp
    ring
  rw [hv]
  norm_num

lemma calculateAngle_straight :
    calculateAngle ⟨1, 0, 0, none⟩ ⟨0, 0, 0, none⟩ ⟨-1, 0, 0, none⟩ = 180 := by
  have h : calculateAngle ⟨1, 0, 0, none⟩ ⟨0, 0, 0, none⟩ ⟨-1, 0, 0, none⟩
      = if |(atan2 0 (-1) - atan2 0 1) * (180 / Real.pi)| > 180
        then 360 - |(atan2 0 (-1) - atan2 0 1) * (180 / Real.pi)|
        else |(atan2 0 (-1) - atan2 0 1) * (180 / Real.pi)| := by
    unfold calculateAngle
    norm_num
  rw [h, atan2_zero_neg_one, atan2_zero_one]
  have hv : (Real.pi - 0) * (180 / Real.pi) = 180 := by
    field_simp
  rw [hv]
  norm_num

lemma calculateAngle_same_ray :
    calculateAngle ⟨1, 0, 0, none⟩ ⟨0, 0, 0, none⟩ ⟨1, 0, 0, none⟩ = 0 := by
  have h : calculateAngle ⟨1, 0, 0, none⟩ ⟨0, 0, 0, none⟩ ⟨1, 0, 0, none⟩
      = if |(atan2 0 1 - atan2 0 1) * (180 / Real.pi)| > 180
        then 360 - |(atan2 0 1 - atan2 0 1) * (180 / Real.pi)|
        else |(atan2 0 1 - atan2 0 1) * (180 / Real.pi)| := by
    unfold calculateAngle
    norm_num
  rw [h]
  norm_num

/-- C6: `calculateAngle(p1, p2, p3)` returns the unsigned vertex angle at
`p2` in degrees, always within `[0, 180]` for arbitrary inputs; it returns
90 for `p1=(1,0)`, `p2=(0,0)`, `p3=(0,1)`, 180 for collinear points with
`p1` and `p3` on opposite sides of `p2`, and 0 when they lie on the same
ray; only the `x` and `y` coordinates influence the result. -/
theorem calculateAngle_contract :
    (∀ p1 p2 p3 : PoseLandmark,
        0 ≤ calculateAngle p1 p2 p3 ∧ calculateAngle p1 p2 p3 ≤ 180) ∧
    calculateAngle ⟨1, 0, 0, none⟩ ⟨0, 0, 0, none⟩ ⟨0, 1, 0, none⟩ = 90 ∧
    calculateAngle ⟨1, 0, 0, none⟩ ⟨0, 0, 0, none⟩ ⟨-1, 0, 0, none⟩ = 180 ∧
    calculateAngle ⟨1, 0, 0, none⟩ ⟨0, 0, 0, none⟩ ⟨1, 0, 0, none⟩ = 0 ∧
    (∀ (a b c : PoseLandmark) (z1 z2 z3 : ℝ) (v1 v2 v3 : Option ℝ),
        calculateAngle ⟨a.x, a.y, z1, v1⟩ ⟨b.x, b.y, z2, v2⟩ ⟨c.x, c.y, z3, v3⟩ =
          calculateAngle a b c) :=
  ⟨calculateAngle_nonneg_le, calculateAngle_right_angle, calculateAngle_straight,
   calculateAngle_same_ray, fun _ _ _ _ _ _ _ _ _ => rfl⟩

/-! ### Stable sort lemmas -/

lemma insertDesc_perm (m : FeedbackMessage) (l : List FeedbackMessage) :
    (insertDesc m l).Perm (m :: l) := by
  induction l with
  | nil => exact List.Perm.refl _
  | cons n ns ih =>
    unfold insertDesc
    split_ifs with h
    · exact (ih.cons n).trans (List.Perm.swap m n ns)
    · exact List.Perm.refl _

lemma sortFeedback_perm (l : List FeedbackMessage) : (sortFeedback l).Perm l := by
  induction l with
  | nil => exact List.Perm.refl _
  | cons m ms ih =>
    unfold sortFeedback
    exact (insertDesc_perm m (sortFeedback ms)).trans (ih.cons m)

lemma insertDesc_sorted (m : FeedbackMessage) {l : List FeedbackMessage}
    (h : l.Sorted (fun a b => b.priority ≤ a.priority)) :
    (insertDesc m l).Sorted (fun a b => b.priority ≤ a.priority) := by
  induction l with
  | nil => simp [insertDesc]
  | cons n ns ih =>
    rw [List.sorted_cons] at h
    obtain ⟨hn, hns⟩ := h
    unfold insertDesc
    split_ifs with hc
    · rw [List.sorted_cons]
      refine ⟨?_, ih hns⟩
      intro b hb
      rcases List.mem_cons.mp ((insertDesc_perm m ns).mem_iff.mp hb) with rfl | hbns
      · exact le_of_lt hc
      · exact hn b hbns
    · rw [List.sorted_cons]
      refine ⟨?_, List.sorted_cons.mpr ⟨hn, hns⟩⟩
      intro b hb
      rcases List.mem_cons.mp hb with rfl | hbns
      · exact not_lt.mp hc
      · exact le_trans (hn b hbns) (not_lt.mp hc)

lemma sortFeedback_sorted (l : List FeedbackMessage) :
    (sortFeedback l).Sorted (fun a b => b.priority ≤ a.priority) := by
  induction l with
  | nil => simp [sortFeedback]
  | cons m ms ih =>
    unfold sortFeedback
    exact insertDesc_sorted m ih

lemma insertDesc_filter_eq (m : FeedbackMessage) (l : List FeedbackMessage) (p : ℤ)
    (h : m.priority = p) :
    (insertDesc m l).filter (fun x => x.priority == p) =
      m :: l.filter (fun x => x.priority == p) := by
  induction l with
  | nil => simp [insertDesc, List.filter_cons, h]
  | cons n ns ih =>
    unfold insertDesc
    split_ifs with hc
    · have hne : (n.priority == p) = false := by
        rw [beq_eq_false_iff_ne]
        rw [h] at hc
        exact fun hnp => absurd (hnp ▸ hc) (lt_irrefl p)
      simp only [List.filter_cons, hne, ih]
      rfl
    · simp only [List.filter_cons, beq_iff_eq, h, if_pos rfl]
      rfl

lemma insertDesc_filter_ne (m : FeedbackMessage) (l : List FeedbackMessage) (p : ℤ)
    (h : m.priority ≠ p) :
    (insertDesc m l).filter (fun x => x.priority == p) =
      l.filter (fun x => x.priority == p) := by
  have hm : (m.priority == p) = false := beq_eq_false_iff_ne.mpr h
  induction l with
  | nil => simp [insertDesc, List.filter_cons, hm]
  | cons n ns ih =>
    unfold insertDesc
    split_ifs with hc
    · simp only [List.filter_cons, ih]
    · simp [List.filter_cons, hm]

lemma sortFeedback_filter (l : List FeedbackMessage) (p : ℤ) :
    (sortFeedback l).filter (fun x => x.priority == p) =
      l.filter (fun x => x.priority == p) := by
  induction l with
  | nil => rfl
  | cons m ms ih =>
    unfold sortFeedback
    by_cases h : m.priority = p
    · rw [insertDesc_filter_eq m (sortFeedback ms) p h, ih, List.filter_cons,
        if_pos (beq_iff_eq.mpr h)]
    · rw [insertDesc_filter_ne m (sortFeedback ms) p h, ih, List.filter_cons,
        if_neg (by simp [beq_eq_false_iff_ne.mpr h])]

/-- C7: the feedback list returned per frame is the generated messages under
a stable descending-priority sort, truncated to the first two: the sort is a
permutation, sorted by descending priority, and stable (messages of each
fixed priority keep their generation order); both analyze policies return
exactly the first two messages of that sort; and for generated priorities
`[3, 1, 4, 2]` the returned list is the priority-4 message followed by the
priority-3 message. -/
theorem feedback_ranking_contract :
    (∀ l : List FeedbackMessage, (sortFeedback l).Perm l) ∧
    (∀ l : List FeedbackMessage,
        (sortFeedback l).Sorted (fun a b => b.priority ≤ a.priority)) ∧
    (∀ (l : List FeedbackMessage) (p : ℤ),
        (sortFeedback l).filter (fun x => x.priority == p) =
          l.filter (fun x => x.priority == p)) ∧
    (∀ (sig : SquatSignals) (config : ExerciseConfig) (s : AnalyzerState) (now : ℤ),
        (squatStep sig config s now).2.feedback =
          (sortFeedback (squatFeedback sig (s.frameCount + 1))).take 2 ∧
        (squatStep sig config s now).2.feedback.length ≤ 2) ∧
    (∀ (sig : ShoulderSignals) (config : ExerciseConfig) (s : AnalyzerState),
        (shoulderStep sig config s).2.feedback =
          (sortFeedback (shoulderFeedback sig)).take 2 ∧
        (shoulderStep sig config s).2.feedback.length ≤ 2) ∧
    (sortFeedback
        [⟨"warning", "w3", 3⟩, ⟨"success", "s1", 1⟩, ⟨"error", "e4", 4⟩,
         ⟨"warning", "w2", 2⟩]).take 2 =
      [⟨"error", "e4", 4⟩, ⟨"warning", "w3", 3⟩] := by
  refine ⟨sortFeedback_perm, sortFeedback_sorted, sortFeedback_filter, ?_, ?_, ?_⟩
  · intro sig config s now
    refine ⟨rfl, ?_⟩
    rw [show (squatStep sig config s now).2.feedback =
      (sortFeedback (squatFeedback sig (s.frameCount + 1))).take 2 from rfl]
    rw [List.length_take]
    exact min_le_left _ _
  · intro sig config s
    refine ⟨rfl, ?_⟩
    rw [show (shoulderStep sig config s).2.feedback =
      (sortFeedback (shoulderFeedback sig)).take 2 from rfl]
    rw [List.length_take]
    exact min_le_left _ _
  · rfl

/-! ### Squat rep state machine lemmas -/

lemma up_ne_down : ("up" : String) ≠ "down" := by decide

lemma down_ne_up : ("down" : String) ≠ "up" := by decide

lemma squatStep_fst (sig : SquatSignals) (config : ExerciseConfig)
    (s : AnalyzerState) (now : ℤ) :
    (squatStep sig config s now).1 =
      { squatRepUpdate sig { s with frameCount := s.frameCount + 1 } now with
        currentScore := max 0 (squatScore sig) } := rfl

lemma squatRepUpdate_to_down (sig : SquatSignals) (s : AnalyzerState) (now : ℤ)
    (h : sig.kneeAngle < 120) (hp : s.lastPosition = "up") :
    squatRepUpdate sig s now = { s with lastPosition := "down" } := by
  unfold squatRepUpdate
  rw [if_pos ⟨h, hp⟩]

lemma squatRepUpdate_stay_up (sig : SquatSignals) (s : AnalyzerState) (now : ℤ)
    (h : ¬ sig.kneeAngle < 120) (hp : s.lastPosition = "up") :
    squatRepUpdate sig s now = s := by
  have hc1 : ¬ (sig.kneeAngle < 120 ∧ s.lastPosition = "up") := fun hcon => h hcon.1
  have hc2 : ¬ (¬ sig.kneeAngle < 120 ∧ s.lastPosition = "down") := by
    rintro ⟨-, hdown⟩
    rw [hp] at hdown
    exact up_ne_down hdown
  unfold squatRepUpdate
  rw [if_neg hc1, if_neg hc2]

lemma squatRepUpdate_stay_down (sig : SquatSignals) (s : AnalyzerState) (now : ℤ)
    (h : sig.kneeAngle < 120) (hp : s.lastPosition = "down") :
    squatRepUpdate sig s now = s := by
  have hc1 : ¬ (sig.kneeAngle < 120 ∧ s.lastPosition = "up") := by
    rintro ⟨-, hup⟩
    rw [hp] at hup
    exact down_ne_up hup
  have hc2 : ¬ (¬ sig.kneeAngle < 120 ∧ s.lastPosition = "down") := fun hcon => hcon.1 h
  unfold squatRepUpdate
  rw [if_neg hc1, if_neg hc2]

lemma squatRepUpdate_count (sig : SquatSignals) (s : AnalyzerState) (now : ℤ)
    (h : ¬ sig.kneeAngle < 120) (hp : s.lastPosition = "down") :
    squatRepUpdate sig s now =
      { s with repCount := s.repCount + 1
               lastPosition := "up"
               repData := s.repData ++ [squatRep sig s now] } := by
  have hc1 : ¬ (sig.kneeAngle < 120 ∧ s.lastPosition = "up") := fun hcon => h hcon.1
  unfold squatRepUpdate
  rw [if_neg hc1, if_pos ⟨h, hp⟩]

lemma squatStep_stay_up (config : ExerciseConfig) (now : ℤ)
    {sig : SquatSignals} {s : AnalyzerState}
    (h : ¬ sig.kneeAngle < 120) (hp : s.lastPosition = "up") :
    (squatStep sig config s now).1.repCount = s.repCount ∧
    (squatStep sig config s now).1.lastPosition = "up" ∧
    (squatStep sig config s now).1.repData = s.repData := by
  rw [squatStep_fst,
    squatRepUpdate_stay_up sig { s with frameCount := s.frameCount + 1 } now h hp]
  exact ⟨rfl, hp, rfl⟩

lemma squatStep_to_down (config : ExerciseConfig) (now : ℤ)
    {sig : SquatSignals} {s : AnalyzerState}
    (h : sig.kneeAngle < 120) (hp : s.lastPosition = "up") :
    (squatStep sig config s now).1.repCount = s.repCount ∧
    (squatStep sig config s now).1.lastPosition = "down" ∧
    (squatStep sig config s now).1.repData = s.repData := by
  rw [squatStep_fst,
    squatRepUpdate_to_down sig { s with frameCount := s.frameCount + 1 } now h hp]
  exact ⟨rfl, rfl, rfl⟩

lemma squatStep_stay_down (config : ExerciseConfig) (now : ℤ)
    {sig : SquatSignals} {s : AnalyzerState}
    (h : sig.kneeAngle < 120) (hp : s.lastPosition = "down") :
    (squatStep sig config s now).1.repCount = s.repCount ∧
    (squatStep sig config s now).1.lastPosition = "down" ∧
    (squatStep sig config s now).1.repData = s.repData := by
  rw [squatStep_fst,
    squatRepUpdate_stay_down sig { s with frameCount := s.frameCount + 1 } now h hp]
  exact ⟨rfl, hp, rfl⟩

lemma squatStep_count (config : ExerciseConfig) (now : ℤ)
    {sig : SquatSignals} {s : AnalyzerState}
    (h : ¬ sig.kneeAngle < 120) (hp : s.lastPosition = "down") :
    (squatStep sig config s now).1.repCount = s.repCount + 1 ∧
    (squatStep sig config s now).1.lastPosition = "up" ∧
    (squatStep sig config s now).1.repData =
      s.repData ++ [squatRep sig { s with frameCount := s.frameCount + 1 } now] ∧
    (squatRep sig { s with frameCount := s.frameCount + 1 } now).repIndex =
      s.repCount + 1 := by
  rw [squatStep_fst,
    squatRepUpdate_count sig { s with frameCount := s.frameCount + 1 } now h hp]
  exact ⟨rfl, rfl, rfl, rfl⟩

lemma squatRunSeq_cons (g : SquatSignals) (gs : List SquatSignals)
    (config : ExerciseConfig) (s : AnalyzerState) (now : ℤ) :
    squatRunSeq (g :: gs) config s now =
      squatRunSeq gs config (squatStep g config s now).1 now := rfl

lemma squatRunSeq_append (L1 L2 : List SquatSignals) (config : ExerciseConfig)
    (s : AnalyzerState) (now : ℤ) :
    squatRunSeq (L1 ++ L2) config s now =
      squatRunSeq L2 config (squatRunSeq L1 config s now) now := by
  unfold squatRunSeq
  rw [List.foldl_append]

lemma squatRunSeq_up_phase (config : ExerciseConfig) (now : ℤ) :
    ∀ (L : List SquatSignals) (s : AnalyzerState),
    (∀ g ∈ L, ¬ g.kneeAngle < 120) → s.lastPosition = "up" →
    (squatRunSeq L config s now).repCount = s.repCount ∧
    (squatRunSeq L config s now).lastPosition = "up" ∧
    (squatRunSeq L config s now).repData = s.repData := by
  intro L
  induction L with
  | nil => exact fun s _ hp => ⟨rfl, hp, rfl⟩
  | cons g gs ih =>
    intro s hall hp
    have hg : ¬ g.kneeAngle < 120 := hall g (List.mem_cons_self _ _)
    obtain ⟨e1, e2, e3⟩ := squatStep_stay_up config now hg hp
    rw [squatRunSeq_cons]
    obtain ⟨f1, f2, f3⟩ :=
      ih ((squatStep g config s now).1) (fun x hx => hall x (List.mem_cons_of_mem _ hx)) e2
    exact ⟨f1.trans e1, f2, f3.trans e3⟩

lemma squatRunSeq_down_phase (config : ExerciseConfig) (now : ℤ) :
    ∀ (L : List SquatSignals) (s : AnalyzerState),
    (∀ g ∈ L, g.kneeAngle < 120) → s.lastPosition = "down" →
    (squatRunSeq L config s now).repCount = s.repCount ∧
    (squatRunSeq L config s now).lastPosition = "down" ∧
    (squatRunSeq L config s now).repData = s.repData := by
  intro L
  induction L with
  | nil => exact fun s _ hp => ⟨rfl, hp, rfl⟩
  | cons g gs ih =>
    intro s hall hp
    have hg : g.kneeAngle < 120 := hall g (List.mem_cons_self _ _)
    obtain ⟨e1, e2, e3⟩ := squatStep_stay_down config now hg hp
    rw [squatRunSeq_cons]
    obtain ⟨f1, f2, f3⟩ :=
      ih ((squatStep g config s now).1) (fun x hx => hall x (List.mem_cons_of_mem _ hx)) e2
    exact ⟨f1.trans e1, f2, f3.trans e3⟩

/-- C4: from any analyzer state whose phase is `"up"`, a squat frame
sequence whose knee angle is first at least 120, then below 120, then back
at least 120 increments `repCount` by exactly one and appends exactly one
`RepData` entry, whose `repIndex` equals the new `repCount`. -/
theorem squat_rep_cycle (config : ExerciseConfig) (now : ℤ) (s : AnalyzerState)
    (L1 L2 L3 : List SquatSignals)
    (hs : s.lastPosition = "up")
    (h1 : ∀ g ∈ L1, 120 ≤ g.kneeAngle)
    (h2 : ∀ g ∈ L2, g.kneeAngle < 120)
    (h2ne : L2 ≠ [])
    (h3 : ∀ g ∈ L3, 120 ≤ g.kneeAngle)
    (h3ne : L3 ≠ []) :
    (squatRunSeq (L1 ++ L2 ++ L3) config s now).repCount = s.repCount + 1 ∧
    ∃ r : RepData,
      (squatRunSeq (L1 ++ L2 ++ L3) config s now).repData = s.repData ++ [r] ∧
      r.repIndex = (squatRunSeq (L1 ++ L2 ++ L3) config s now).repCount := by
  obtain ⟨g2, gs2, rfl⟩ := List.exists_cons_of_ne_nil h2ne
  obtain ⟨g3, gs3, rfl⟩ := List.exists_cons_of_ne_nil h3ne
  rw [squatRunSeq_append, squatRunSeq_append]
  obtain ⟨a1, a2, a3⟩ :=
    squatRunSeq_up_phase config now L1 s (fun g hg => not_lt.mpr (h1 g hg)) hs
  rw [squatRunSeq_cons]
  obtain ⟨b1, b2, b3⟩ :=
    squatStep_to_down config now (h2 g2 (List.mem_cons_self _ _)) a2
  obtain ⟨c1, c2, c3⟩ :=
    squatRunSeq_down_phase config now gs2 _
      (fun g hg => h2 g (List.mem_cons_of_mem _ hg)) b2
  rw [squatRunSeq_cons]
  obtain ⟨d1, d2, d3, d4⟩ := squatStep_count config now
    (not_lt.mpr (h3 g3 (List.mem_cons_self _ _))) c2
  obtain ⟨e1, e2, e3⟩ :=
    squatRunSeq_up_phase config now gs3 _
      (fun g hg => not_lt.mpr (h3 g (List.mem_cons_of_mem _ hg))) d2
  constructor
  · rw [e1, d1, c1, b1, a1]
  · refine ⟨squatRep g3
      { squatRunSeq gs2 config (squatStep g2 config (squatRunSeq L1 config s now) now).1 now with
        frameCount := (squatRunSeq gs2 config (squatStep g2 config
          (squatRunSeq L1 config s now) now).1 now).frameCount + 1 } now, ?_, ?_⟩
    · rw [e3, d3, c3, b3, a3]
      exact rfl
    · rw [d4, e1, d1]

/-- Witness for C4 at a concrete three-frame sequence from the initial
state: knee angle 150, then 100, then 150. -/
theorem squat_rep_cycle_witness :
    (squatRunSeq ([⟨150, 40, false, false, false⟩] ++ [⟨100, 40, false, false, false⟩] ++
        [⟨150, 40, false, false, false⟩]) squatConfig initialState 0).repCount =
      initialState.repCount + 1 ∧
    ∃ r : RepData,
      (squatRunSeq ([⟨150, 40, false, false, false⟩] ++ [⟨100, 40, false, false, false⟩] ++
          [⟨150, 40, false, false, false⟩]) squatConfig initialState 0).repData =
        initialState.repData ++ [r] ∧
      r.repIndex =
        (squatRunSeq ([⟨150, 40, false, false, false⟩] ++ [⟨100, 40, false, false, false⟩] ++
            [⟨150, 40, false, false, false⟩]) squatConfig initialState 0).repCount :=
  squat_rep_cycle squatConfig 0 initialState _ _ _ rfl
    (fun g hg => by rw [List.mem_singleton.mp hg]; norm_num)
    (fun g hg => by rw [List.mem_singleton.mp hg]; norm_num)
    (List.cons_ne_nil _ _)
    (fun g hg => by rw [List.mem_singleton.mp hg]; norm_num)
    (List.cons_ne_nil _ _)

/-! ### Shoulder rep state machine lemmas -/

lemma shoulderStep_fst (sig : ShoulderSignals) (config : ExerciseConfig)
    (s : AnalyzerState) :
    (shoulderStep sig config s).1 =
      { shoulderRepUpdate sig s with currentScore := max 0 (shoulderScore sig) } := rfl

lemma shoulderRepUpdate_to_up (sig : ShoulderSignals) (s : AnalyzerState)
    (h45 : avgShoulderAngle sig > 45) (h75 : avgShoulderAngle sig > 75)
    (hp : s.lastPosition = "down") :
    shoulderRepUpdate sig s = { s with lastPosition := "up" } := by
  unfold shoulderRepUpdate
  rw [if_pos ⟨h45, h75, hp⟩]

lemma shoulderRepUpdate_count (sig : ShoulderSignals) (s : AnalyzerState)
    (h45 : ¬ avgShoulderAngle sig > 45) (h30 : avgShoulderAngle sig < 30)
    (hp : s.lastPosition = "up") :
    shoulderRepUpdate sig s =
      { s with repCount := s.repCount + 1, lastPosition := "down" } := by
  have hc1 : ¬ (avgShoulderAngle sig > 45 ∧ avgShoulderAngle sig > 75 ∧
      s.lastPosition = "down") := fun hcon => h45 hcon.1
  unfold shoulderRepUpdate
  rw [if_neg hc1, if_pos ⟨h45, h30, hp⟩]

lemma shoulderRepUpdate_else (sig : ShoulderSignals) (s : AnalyzerState)
    (hA : ¬ (avgShoulderAngle sig > 45 ∧ avgShoulderAngle sig > 75 ∧
        s.lastPosition = "down"))
    (hB : ¬ (¬ avgShoulderAngle sig > 45 ∧ avgShoulderAngle sig < 30 ∧
        s.lastPosition = "up")) :
    shoulderRepUpdate sig s = s := by
  unfold shoulderRepUpdate
  rw [if_neg hA, if_neg hB]

lemma shoulderRepUpdate_mid (sig : ShoulderSignals) (s : AnalyzerState)
    (h75 : ¬ avgShoulderAngle sig > 75) (h30 : ¬ avgShoulderAngle sig < 30) :
    shoulderRepUpdate sig s = s :=
  shoulderRepUpdate_else sig s (fun hcon => h75 hcon.2.1) (fun hcon => h30 hcon.2.1)

lemma shoulderStep_count_from_up (config : ExerciseConfig) (sig : ShoulderSignals)
    (s : AnalyzerState) (h30 : avgShoulderAngle sig < 30) (hp : s.lastPosition = "up") :
    (shoulderStep sig config s).1.repCount = s.repCount + 1 := by
  have h45 : ¬ avgShoulderAngle sig > 45 := by intro hcon; linarith
  rw [shoulderStep_fst, shoulderRepUpdate_count sig s h45 h30 hp]

lemma shoulderRunSeq_cons (g : ShoulderSignals) (gs : List ShoulderSignals)
    (config : ExerciseConfig) (s : AnalyzerState) :
    shoulderRunSeq (g :: gs) config s =
      shoulderRunSeq gs config (shoulderStep g config s).1 := rfl

/-- C5: in `analyzeShoulderAbduction` the phase goes `"down"` to `"up"`
exactly when in-position and the average shoulder angle exceeds 75, and the
counted `"up"` to `"down"` transition (incrementing `repCount`) fires
exactly when not in-position and the average angle is below 30; a two-frame
sequence reaching average angle above 75 then below 30 increments
`repCount` by one, while any sequence whose average angle stays within
`[30, 75]` never increments it. -/
theorem shoulder_rep_transitions :
    (∀ (config : ExerciseConfig) (sig : ShoulderSignals) (s : AnalyzerState),
        s.lastPosition = "down" →
        ((shoulderStep sig config s).1.lastPosition = "up" ↔
          avgShoulderAngle sig > 45 ∧ avgShoulderAngle sig > 75)) ∧
    (∀ (config : ExerciseConfig) (sig : ShoulderSignals) (s : AnalyzerState),
        s.lastPosition = "up" →
        ((shoulderStep sig config s).1.repCount = s.repCount + 1 ↔
          ¬ avgShoulderAngle sig > 45 ∧ avgShoulderAngle sig < 30)) ∧
    (∀ (config : ExerciseConfig) (sig1 sig2 : ShoulderSignals) (s : AnalyzerState),
        (s.lastPosition = "up" ∨ s.lastPosition = "down") →
        avgShoulderAngle sig1 > 75 → avgShoulderAngle sig2 < 30 →
        (shoulderRunSeq [sig1, sig2] config s).repCount = s.repCount + 1) ∧
    (∀ (config : ExerciseConfig) (L : List ShoulderSignals) (s : AnalyzerState),
        (∀ g ∈ L, 30 ≤ avgShoulderAngle g ∧ avgShoulderAngle g ≤ 75) →
        (shoulderRunSeq L config s).repCount = s.repCount) := by
  refine ⟨?_, ?_, ?_, ?_⟩
  · intro config sig s hp
    by_cases hc : avgShoulderAngle sig > 45 ∧ avgShoulderAngle sig > 75
    · rw [shoulderStep_fst, shoulderRepUpdate_to_up sig s hc.1 hc.2 hp]
      exact iff_of_true rfl hc
    · have hA : ¬ (avgShoulderAngle sig > 45 ∧ avgShoulderAngle sig > 75 ∧
          s.lastPosition = "down") := fun hcon => hc ⟨hcon.1, hcon.2.1⟩
      have hB : ¬ (¬ avgShoulderAngle sig > 45 ∧ avgShoulderAngle sig < 30 ∧
          s.lastPosition = "up") := by
        rintro ⟨-, -, hup⟩
        rw [hp] at hup
        exact down_ne_up hup
      rw [shoulderStep_fst, shoulderRepUpdate_else sig s hA hB]
      refine iff_of_false (fun h => ?_) hc
      have h2 : s.lastPosition = "up" := h
      rw [hp] at h2
      exact down_ne_up h2
  · intro config sig s hp
    by_cases hc : ¬ avgShoulderAngle sig > 45 ∧ avgShoulderAngle sig < 30
    · rw [shoulderStep_fst, shoulderRepUpdate_count sig s hc.1 hc.2 hp]
      exact iff_of_true rfl hc
    · have hA : ¬ (avgShoulderAngle sig > 45 ∧ avgShoulderAngle sig > 75 ∧
          s.lastPosition = "down") := by
        rintro ⟨-, -, hdown⟩
        rw [hp] at hdown
        exact up_ne_down hdown
      have hB : ¬ (¬ avgShoulderAngle sig > 45 ∧ avgShoulderAngle sig < 30 ∧
          s.lastPosition = "up") := fun hcon => hc ⟨hcon.1, hcon.2.1⟩
      rw [shoulderStep_fst, shoulderRepUpdate_else sig s hA hB]
      refine iff_of_false (fun h => ?_) hc
      have h2 : s.repCount = s.repCount + 1 := h
      omega
  · intro config sig1 sig2 s hp h75 h30
    rcases hp with hup | hdown
    · have hA : ¬ (avgShoulderAngle sig1 > 45 ∧ avgShoulderAngle sig1 > 75 ∧
          s.lastPosition = "down") := by
        rintro ⟨-, -, hdown1⟩
        rw [hup] at hdown1
        exact up_ne_down hdown1
      have hB : ¬ (¬ avgShoulderAngle sig1 > 45 ∧ avgShoulderAngle sig1 < 30 ∧
          s.lastPosition = "up") := by
        rintro ⟨-, h30x, -⟩
        linarith
      have e1 : shoulderRepUpdate sig1 s = s := shoulderRepUpdate_else sig1 s hA hB
      have k1 : (shoulderStep sig1 config s).1.lastPosition = "up" := by
        rw [shoulderStep_fst, e1]
        exact hup
      have k0 : (shoulderStep sig1 config s).1.repCount = s.repCount := by
        rw [shoulderStep_fst, e1]
      rw [shoulderRunSeq_cons, shoulderRunSeq_cons]
      rw [show shoulderRunSeq [] config
        (shoulderStep sig2 config (shoulderStep sig1 config s).1).1 =
        (shoulderStep sig2 config (shoulderStep sig1 config s).1).1 from rfl]
      rw [shoulderStep_count_from_up config sig2 _ h30 k1, k0]
    · have e1 : shoulderRepUpdate sig1 s = { s with lastPosition := "up" } :=
        shoulderRepUpdate_to_up sig1 s (by linarith) h75 hdown
      have k1 : (shoulderStep sig1 config s).1.lastPosition = "up" := by
        rw [shoulderStep_fst, e1]
      have k0 : (shoulderStep sig1 config s).1.repCount = s.repCount := by
        rw [shoulderStep_fst, e1]
      rw [shoulderRunSeq_cons, shoulderRunSeq_cons]
      rw [show shoulderRunSeq [] config
        (shoulderStep sig2 config (shoulderStep sig1 config s).1).1 =
        (shoulderStep sig2 config (shoulderStep sig1 config s).1).1 from rfl]
      rw [shoulderStep_count_from_up config sig2 _ h30 k1, k0]
  · intro config L
    induction L with
    | nil => intro s _; rfl
    | cons g gs ih =>
      intro s hall
      have hg := hall g (List.mem_cons_self _ _)
      have e : shoulderRepUpdate g s = s :=
        shoulderRepUpdate_mid g s (not_lt.mpr hg.2) (not_lt.mpr hg.1)
      have k0 : (shoulderStep g config s).1.repCount = s.repCount := by
        rw [shoulderStep_fst, e]
      rw [shoulderRunSeq_cons,
        ih ((shoulderStep g config s).1) (fun x hx => hall x (List.mem_cons_of_mem _ hx)),
        k0]

/-- Witness for C5 at concrete signals: average angle 80 raises the phase
from `"down"`, average angle 10 counts the rep from `"up"`, the two-frame
sequence 80-then-10 adds one rep from the initial state, and a frame at 50
changes nothing. -/
theorem shoulder_rep_transitions_witness :
    ((shoulderStep ⟨80, 80, false, false⟩ shoulderAbductionConfig
        { initialState with lastPosition := "down" }).1.lastPosition = "up" ↔
      avgShoulderAngle ⟨80, 80, false, false⟩ > 45 ∧
        avgShoulderAngle ⟨80, 80, false, false⟩ > 75) ∧
    ((shoulderStep ⟨10, 10, false, false⟩ shoulderAbductionConfig
        initialState).1.repCount = initialState.repCount + 1 ↔
      ¬ avgShoulderAngle ⟨10, 10, false, false⟩ > 45 ∧
        avgShoulderAngle ⟨10, 10, false, false⟩ < 30) ∧
    (shoulderRunSeq [⟨80, 80, false, false⟩, ⟨10, 10, false, false⟩]
        shoulderAbductionConfig initialState).repCount = initialState.repCount + 1 ∧
    (shoulderRunSeq [⟨50, 50, false, false⟩] shoulderAbductionConfig
        initialState).repCount = initialState.repCount := by
  obtain ⟨a, b, c, d⟩ := shoulder_rep_transitions
  refine ⟨a _ _ _ rfl, b _ _ _ rfl, c _ _ _ _ (Or.inl rfl) ?_ ?_, d _ _ _ ?_⟩
  · show avgShoulderAngle ⟨80, 80, false, false⟩ > 75
    norm_num [avgShoulderAngle]
  · show avgShoulderAngle ⟨10, 10, false, false⟩ < 30
    norm_num [avgShoulderAngle]
  · intro g hg
    rw [List.mem_singleton.mp hg]
    constructor <;> norm_num [avgShoulderAngle]

/-! ### Missing-landmark behavior -/

lemma requireSquat_isSome (k : KeyLandmarks) :
    (requireSquat k).isSome =
      (k.leftHip.isSome && k.leftKnee.isSome && k.leftAnkle.isSome &&
       k.rightHip.isSome && k.rightKnee.isSome && k.rightAnkle.isSome &&
       k.leftShoulder.isSome && k.rightShoulder.isSome) := by
  obtain ⟨ls, rs, _, _, _, _, lh, rh, lk, rk, la, ra, _, _, _⟩ := k
  cases lh <;> cases lk <;> cases la <;> cases rh <;> cases rk <;> cases ra <;>
    cases ls <;> cases rs <;> rfl

lemma requireShoulder_isSome (k : KeyLandmarks) :
    (requireShoulder k).isSome =
      (k.leftElbow.isSome && k.leftShoulder.isSome && k.leftHip.isSome &&
       k.rightElbow.isSome && k.rightShoulder.isSome && k.rightHip.isSome) := by
  obtain ⟨ls, rs, le, re, _, _, lh, rh, _, _, _, _, _, _, _⟩ := k
  cases le <;> cases ls <;> cases lh <;> cases re <;> cases rs <;> cases rh <;> rfl

lemma analyzeSquat_ok (landmarks : List (Option PoseLandmark)) (config : ExerciseConfig)
    (s : AnalyzerState) (now : ℤ) :
    exceptOk (analyzeSquat landmarks config s now).2 = squatLandmarksPresent landmarks := by
  have hiso := requireSquat_isSome (getKeyLandmarks landmarks)
  unfold analyzeSquat
  cases h : requireSquat (getKeyLandmarks landmarks) with
  | none =>
    rw [h] at hiso
    exact hiso
  | some p =>
    rw [h] at hiso
    exact hiso

lemma analyzeShoulder_ok (landmarks : List (Option PoseLandmark))
    (config : ExerciseConfig) (s : AnalyzerState) :
    exceptOk (analyzeShoulderAbduction landmarks config s).2 =
      shoulderLandmarksPresent landmarks := by
  have hiso := requireShoulder_isSome (getKeyLandmarks landmarks)
  unfold analyzeShoulderAbduction
  cases h : requireShoulder (getKeyLandmarks landmarks) with
  | none =>
    rw [h] at hiso
    exact hiso
  | some p =>
    rw [h] at hiso
    exact hiso

/-- C1 counterexample: on a frame with all landmark slots absent (the empty
frame, on which every `landmarks[i]` is `undefined`), both analyze methods
raise a `TypeError` instead of skipping the dependent checks, so the caller
does observe an exception from a missing-landmark situation. -/
theorem missing_landmark_raises :
    (analyzeSquat [] squatConfig initialState 0).2 = Except.error "TypeError" ∧
    (analyzeShoulderAbduction [] shoulderAbductionConfig initialState).2 =
      Except.error "TypeError" :=
  ⟨rfl, rfl⟩

/-- C1 (amended): a call to `analyzeSquat` / `analyzeShoulderAbduction`
raises a `TypeError` exactly when one of the landmarks it dereferences is
absent from the frame (no per-check skipping happens); when all required
landmarks are present the call returns a metrics snapshot and raises
nothing. -/
theorem missing_landmark_behavior :
    (∀ (landmarks : List (Option PoseLandmark)) (config : ExerciseConfig)
        (s : AnalyzerState) (now : ℤ),
        exceptOk (analyzeSquat landmarks config s now).2 =
          squatLandmarksPresent landmarks) ∧
    (∀ (landmarks : List (Option PoseLandmark)) (config : ExerciseConfig)
        (s : AnalyzerState),
        exceptOk (analyzeShoulderAbduction landmarks config s).2 =
          shoulderLandmarksPresent landmarks) :=
  ⟨analyzeSquat_ok, analyzeShoulder_ok⟩

/-! ### Rep snapshot contents -/

lemma squatRep_flags_shallow (sig : SquatSignals) (s : AnalyzerState) (now : ℤ) :
    ("shallow_squat" ∈ (squatRep sig s now).flags) ↔ ¬ sig.kneeAngle < 90 := by
  unfold squatRep
  by_cases h1 : ¬ sig.kneeAngle < 90 <;>
    by_cases h2 : (sig.leftValgus || sig.rightValgus) = true <;>
      by_cases h3 : SquatSignals.excessiveLean sig = true <;>
        simp [h1, h2, h3]

lemma squatRep_flags_valgus (sig : SquatSignals) (s : AnalyzerState) (now : ℤ) :
    ("knee_valgus" ∈ (squatRep sig s now).flags) ↔
      (sig.leftValgus || sig.rightValgus) = true := by
  unfold squatRep
  by_cases h1 : ¬ sig.kneeAngle < 90 <;>
    by_cases h2 : (sig.leftValgus || sig.rightValgus) = true <;>
      by_cases h3 : SquatSignals.excessiveLean sig = true <;>
        simp [h1, h2, h3]

lemma squatRep_flags_lean (sig : SquatSignals) (s : AnalyzerState) (now : ℤ) :
    ("excessive_lean" ∈ (squatRep sig s now).flags) ↔
      SquatSignals.excessiveLean sig = true := by
  unfold squatRep
  by_cases h1 : ¬ sig.kneeAngle < 90 <;>
    by_cases h2 : (sig.leftValgus || sig.rightValgus) = true <;>
      by_cases h3 : SquatSignals.excessiveLean sig = true <;>
        simp [h1, h2, h3]

lemma squatStep_score (sig : SquatSignals) (config : ExerciseConfig)
    (s : AnalyzerState) (now : ℤ) :
    (squatStep sig config s now).2.score = max 0 (squatScore sig) := rfl

lemma shoulderStep_score (sig : ShoulderSignals) (config : ExerciseConfig)
    (s : AnalyzerState) :
    (shoulderStep sig config s).2.score = max 0 (shoulderScore sig) := rfl

/-- C2 counterexample: from the initial state, a frame at knee angle 100
(score 85 stored) followed by a counted up-transition frame at knee angle
150 with no faults appends a rep whose recorded score is 85 — the value
stored by the previous call — while the score of the current frame is
100, so the appended `RepData` does not carry the score of the current
frame. -/
theorem squat_rep_score_counterexample :
    (squatStep ⟨150, 60, false, false, false⟩ squatConfig
        (squatStep ⟨100, 50, false, false, false⟩ squatConfig initialState 0).1 0).2.score
      = 100 ∧
    ((squatStep ⟨150, 60, false, false, false⟩ squatConfig
        (squatStep ⟨100, 50, false, false, false⟩ squatConfig initialState 0).1 0).1.repData.map
      RepData.score) = [85] := by
  have h1 : (squatStep ⟨100, 50, false, false, false⟩ squatConfig initialState 0).1 =
      { repCount := 0, currentScore := 85, lastPosition := "down", repData := [],
        frameCount := 1 } := by
    rw [squatStep_fst, squatRepUpdate_to_down ⟨100, 50, false, false, false⟩
      { initialState with frameCount := initialState.frameCount + 1 } 0
      (show (100 : ℝ) < 120 by norm_num) rfl]
    norm_num [initialState, squatScore]
  constructor
  · rw [squatStep_score]
    norm_num [squatScore]
  · rw [h1]
    rw [(squatStep_count squatConfig 0 (show ¬ (150 : ℝ) < 120 by norm_num)
      (rfl : AnalyzerState.lastPosition
        { repCount := 0, currentScore := 85, lastPosition := "down", repData := [],
          frameCount := 1 } = "down")).2.2.1]
    simp [squatRep]

/-- C2 (amended): the `RepData` appended at the counted squat transition
carries the knee and hip angles of the current frame, `repIndex` equal to
the incremented counter, the timestamp of the call, flags set exactly per
the conditions of the current frame — but its `score` is the stored
`currentScore` at entry (the value written at the end of the previous
call), not the score computed for the current frame. -/
theorem squat_rep_snapshot (config : ExerciseConfig) (now : ℤ) (sig : SquatSignals)
    (s : AnalyzerState) (h : ¬ sig.kneeAngle < 120) (hp : s.lastPosition = "down") :
    ∃ r : RepData,
      (squatStep sig config s now).1.repData = s.repData ++ [r] ∧
      r.angles.knee = sig.kneeAngle ∧
      r.angles.hip = sig.hipAngle ∧
      r.score = s.currentScore ∧
      r.repIndex = s.repCount + 1 ∧
      r.timestamp = now ∧
      (("shallow_squat" ∈ r.flags) ↔ ¬ sig.kneeAngle < 90) ∧
      (("knee_valgus" ∈ r.flags) ↔ (sig.leftValgus || sig.rightValgus) = true) ∧
      (("excessive_lean" ∈ r.flags) ↔ SquatSignals.excessiveLean sig = true) := by
  obtain ⟨d1, d2, d3, d4⟩ := squatStep_count config now h hp
  exact ⟨squatRep sig { s with frameCount := s.frameCount + 1 } now, d3, rfl, rfl, rfl, d4,
    rfl, squatRep_flags_shallow _ _ _, squatRep_flags_valgus _ _ _,
    squatRep_flags_lean _ _ _⟩

/-- Witness for C2 at the concrete counted transition: knee angle 150 with
right valgus and excessive lean from a `"down"` state whose stored score
is 77. -/
theorem squat_rep_snapshot_witness :
    ∃ r : RepData,
      (squatStep ⟨150, 60, false, true, true⟩ squatConfig
          { initialState with lastPosition := "down", currentScore := 77 } 5).1.repData =
        ({ initialState with lastPosition := "down", currentScore := 77 } :
          AnalyzerState).repData ++ [r] ∧
      r.angles.knee = (⟨150, 60, false, true, true⟩ : SquatSignals).kneeAngle ∧
      r.angles.hip = (⟨150, 60, false, true, true⟩ : SquatSignals).hipAngle ∧
      r.score = ({ initialState with lastPosition := "down", currentScore := 77 } :
        AnalyzerState).currentScore ∧
      r.repIndex = ({ initialState with lastPosition := "down", currentScore := 77 } :
        AnalyzerState).repCount + 1 ∧
      r.timestamp = 5 ∧
      (("shallow_squat" ∈ r.flags) ↔
        ¬ (⟨150, 60, false, true, true⟩ : SquatSignals).kneeAngle < 90) ∧
      (("knee_valgus" ∈ r.flags) ↔
        ((⟨150, 60, false, true, true⟩ : SquatSignals).leftValgus ||
         (⟨150, 60, false, true, true⟩ : SquatSignals).rightValgus) = true) ∧
      (("excessive_lean" ∈ r.flags) ↔
        SquatSignals.excessiveLean ⟨150, 60, false, true, true⟩ = true) :=
  squat_rep_snapshot squatConfig 5 ⟨150, 60, false, true, true⟩
    { initialState with lastPosition := "down", currentScore := 77 }
    (show ¬ (150 : ℝ) < 120 by norm_num) rfl

/-! ### Rep log append policy, score bounds, config noninterference -/

/-- C3 counterexample: from the initial state (phase `"up"`), one shoulder
frame with average angle 10 increments `repCount` to 1 while the rep log
stays empty — the shoulder policy increments the counter without appending
any `RepData`. -/
theorem shoulder_rep_without_log :
    (shoulderStep ⟨10, 10, false, false⟩ shoulderAbductionConfig initialState).1.repCount =
      initialState.repCount + 1 ∧
    (shoulderStep ⟨10, 10, false, false⟩ shoulderAbductionConfig initialState).1.repData =
      [] := by
  have hc := shoulderRepUpdate_count ⟨10, 10, false, false⟩ initialState
    (by intro hcon; norm_num [avgShoulderAngle] at hcon)
    (by norm_num [avgShoulderAngle]) rfl
  constructor
  · rw [shoulderStep_fst, hc]
  · rw [shoulderStep_fst, hc]
    exact rfl

/-- C3 (amended): the squat policy changes the rep state per frame in one of
two ways only — counter and log unchanged, or counter incremented by one
with exactly one `RepData` appended (existing entries are never mutated,
the log grows append-only); the shoulder policy never appends to the rep
log at all, even on the frames where it increments `repCount`. -/
theorem rep_log_append_policy :
    (∀ (sig : SquatSignals) (config : ExerciseConfig) (s : AnalyzerState) (now : ℤ),
        ((squatStep sig config s now).1.repCount = s.repCount ∧
         (squatStep sig config s now).1.repData = s.repData) ∨
        ((squatStep sig config s now).1.repCount = s.repCount + 1 ∧
         ∃ r : RepData, (squatStep sig config s now).1.repData = s.repData ++ [r])) ∧
    (∀ (sig : ShoulderSignals) (config : ExerciseConfig) (s : AnalyzerState),
        (shoulderStep sig config s).1.repData = s.repData ∧
        ((shoulderStep sig config s).1.repCount = s.repCount ∨
         (shoulderStep sig config s).1.repCount = s.repCount + 1)) := by
  constructor
  · intro sig config s now
    rw [squatStep_fst]
    unfold squatRepUpdate
    split_ifs with hA hB
    · exact Or.inl ⟨rfl, rfl⟩
    · exact Or.inr ⟨rfl, ⟨_, rfl⟩⟩
    · exact Or.inl ⟨rfl, rfl⟩
  · intro sig config s
    rw [shoulderStep_fst]
    unfold shoulderRepUpdate
    split_ifs with hA hB
    · exact ⟨rfl, Or.inl rfl⟩
    · exact ⟨rfl, Or.inr rfl⟩
    · exact ⟨rfl, Or.inl rfl⟩

lemma squatScore_bounds (sig : SquatSignals) :
    55 ≤ squatScore sig ∧ squatScore sig ≤ 100 := by
  unfold squatScore
  split_ifs <;> norm_num

lemma shoulderScore_bounds (sig : ShoulderSignals) :
    55 ≤ shoulderScore sig ∧ shoulderScore sig ≤ 100 := by
  unfold shoulderScore
  split_ifs <;> norm_num

/-- C8: the per-frame score starts at 100 and subtracts 15 for depth
shortfall, 20 for valgus and 10 for excessive lean (squat); the stored
`currentScore` equals the returned score and lies in `[0, 100]` after every
analyze call, and it is 0 after reset. -/
theorem score_bounds_contract :
    (∀ (sig : SquatSignals) (config : ExerciseConfig) (s : AnalyzerState) (now : ℤ),
        0 ≤ (squatStep sig config s now).1.currentScore ∧
        (squatStep sig config s now).1.currentScore ≤ 100 ∧
        (squatStep sig config s now).2.score =
          (squatStep sig config s now).1.currentScore) ∧
    (∀ (sig : ShoulderSignals) (config : ExerciseConfig) (s : AnalyzerState),
        0 ≤ (shoulderStep sig config s).1.currentScore ∧
        (shoulderStep sig config s).1.currentScore ≤ 100) ∧
    initialState.currentScore = 0 ∧
    (∀ (sig : SquatSignals) (config : ExerciseConfig) (s : AnalyzerState) (now : ℤ),
        sig.kneeAngle < 120 → ¬ sig.kneeAngle < 90 →
        (sig.leftValgus || sig.rightValgus) = true →
        SquatSignals.excessiveLean sig = true →
        (squatStep sig config s now).2.score = 100 - 15 - 20 - 10) := by
  refine ⟨?_, ?_, rfl, ?_⟩
  · intro sig config s now
    have hb := squatScore_bounds sig
    have he : (squatStep sig config s now).1.currentScore = max 0 (squatScore sig) := rfl
    rw [he]
    exact ⟨le_max_left _ _, max_le (by norm_num) hb.2, rfl⟩
  · intro sig config s
    have hb := shoulderScore_bounds sig
    have he : (shoulderStep sig config s).1.currentScore = max 0 (shoulderScore sig) := rfl
    rw [he]
    exact ⟨le_max_left _ _, max_le (by norm_num) hb.2⟩
  · intro sig config s now h1 h2 h3 h4
    rw [squatStep_score]
    unfold squatScore
    rw [if_pos ⟨h1, h2⟩, if_pos h3, if_pos h4]
    norm_num

/-- Witness for C8 at a frame triggering every squat deduction at once:
knee angle 100 (in bottom position, shallow), right valgus, excessive
lean; the returned score is `100 - 15 - 20 - 10 = 55`. -/
theorem score_bounds_contract_witness :
    (squatStep ⟨100, 50, false, true, true⟩ squatConfig initialState 0).2.score =
      100 - 15 - 20 - 10 :=
  score_bounds_contract.2.2.2 ⟨100, 50, false, true, true⟩ squatConfig initialState 0
    (show (100 : ℝ) < 120 by norm_num) (show ¬ (100 : ℝ) < 90 by norm_num) rfl rfl

/-- C9: the `ExerciseConfig` argument never influences either analyze
method — any two configurations produce identical results and state
updates, and every configuration behaves like the registry entries of
`EXERCISE_CONFIGS`; all thresholds are hard-coded in the policies. -/
theorem config_noninterference :
    (∀ (landmarks : List (Option PoseLandmark)) (s : AnalyzerState) (now : ℤ)
        (c1 c2 : ExerciseConfig),
        analyzeSquat landmarks c1 s now = analyzeSquat landmarks c2 s now) ∧
    (∀ (landmarks : List (Option PoseLandmark)) (s : AnalyzerState)
        (c1 c2 : ExerciseConfig),
        analyzeShoulderAbduction landmarks c1 s = analyzeShoulderAbduction landmarks c2 s) ∧
    (∀ (landmarks : List (Option PoseLandmark)) (s : AnalyzerState) (now : ℤ)
        (c : ExerciseConfig),
        analyzeSquat landmarks c s now = analyzeSquat landmarks squatConfig s now ∧
        analyzeShoulderAbduction landmarks c s =
          analyzeShoulderAbduction landmarks shoulderAbductionConfig s) :=
  ⟨fun _ _ _ _ _ => rfl, fun _ _ _ _ => rfl, fun _ _ _ _ => ⟨rfl, rfl⟩⟩

/-- C10: every score returned by a single analyze call is at least 55 (the
maximum total deduction is 45 from a base of 100), so the `Math.max(0, _)`
clamp never binds — the returned score equals the unclamped deduction
total — and a returned score of 0 is unreachable. -/
theorem score_floor_never_binds :
    (∀ (sig : SquatSignals) (config : ExerciseConfig) (s : AnalyzerState) (now : ℤ),
        55 ≤ (squatStep sig config s now).2.score ∧
        (squatStep sig config s now).2.score = squatScore sig ∧
        (squatStep sig config s now).2.score ≠ 0) ∧
    (∀ (sig : ShoulderSignals) (config : ExerciseConfig) (s : AnalyzerState),
        55 ≤ (shoulderStep sig config s).2.score ∧
        (shoulderStep sig config s).2.score = shoulderScore sig ∧
        (shoulderStep sig config s).2.score ≠ 0) := by
  constructor
  · intro sig config s now
    have hb := squatScore_bounds sig
    rw [squatStep_score]
    have hmax : max 0 (squatScore sig) = squatScore sig :=
      max_eq_right (le_trans (by norm_num) hb.1)
    rw [hmax]
    exact ⟨hb.1, rfl, by omega⟩
  · intro sig config s
    have hb := shoulderScore_bounds sig
    rw [shoulderStep_score]
    have hmax : max 0 (shoulderScore sig) = shoulderScore sig :=
      max_eq_right (le_trans (by norm_num) hb.1)
    rw [hmax]
    exact ⟨hb.1, rfl, by omega⟩
